import Mathlib

/-!
Verification development for the structured invocation engine and resource
cache of the `cloudwalk-ops-intel-agent` repository.

The Python sources embedded here:
  * `src/agents/agent_invoker.py` — `AgentInvoker.invoke_with_tools`,
    `AgentInvoker.invoke_with_conversation`;
  * `src/agents/utils/prompt_tool_loader.py` — `PromptLoader.load`,
    `PromptLoader.format`, `ToolsLoader.load`.

Python dictionaries/JSON values are modelled by `PyVal`; the backend is an
oracle assigning to each attempt number either a transport failure or a
response (a list of tool calls plus optional free-text content).  Caches are
association lists, disks are partial maps from filename to file content, and
each loader call reports the number of disk reads it performed.
-/

/-- Model of the Python values that flow through the engine: JSON values and
the dictionaries/strings produced by the backend. -/
inductive PyVal where
  | pdict (entries : List (String × PyVal))
  | pstr (s : String)
  | pint (n : Int)
  | plist (xs : List PyVal)
  | pbool (b : Bool)
  | pnone

/-- The open-brace character (written by code point to keep template braces
out of string literals). -/
def lbraceC : Char := Char.ofNat 123

/-- The close-brace character. -/
def rbraceC : Char := Char.ofNat 125

/-- Characters Python's `str.strip()` and JSON treat as whitespace. -/
def pyIsSpace (c : Char) : Bool :=
  c = ' ' || c = '\t' || c = '\n' || c = '\r' || c = Char.ofNat 11 || c = Char.ofNat 12

/-- Model of Python's `str.strip()`: drop leading and trailing whitespace. -/
def pyStrip (s : String) : String :=
  String.mk (((s.data.dropWhile pyIsSpace).reverse.dropWhile pyIsSpace).reverse)

namespace JsonModel

/-- Drop leading JSON whitespace. -/
def skipWs (cs : List Char) : List Char :=
  cs.dropWhile pyIsSpace

/-- Scan a JSON string body: the characters up to the closing quote and the
rest of the input.  Escapes are outside the modelled subset (fails on a
backslash), which is enough for every literal exercised in this development. -/
def scanString : List Char → Option (List Char × List Char)
  | [] => none
  | c :: cs =>
    if c = '"' then some ([], cs)
    else if c = '\\' then none
    else match scanString cs with
      | some (body, rest) => some (c :: body, rest)
      | none => none

/-- Scan a run of decimal digits. -/
def scanDigits : List Char → (List Char × List Char)
  | [] => ([], [])
  | c :: cs =>
    if c.isDigit then
      let (ds, rest) := scanDigits cs
      (c :: ds, rest)
    else ([], c :: cs)

/-- Digits to a natural number value. -/
def digitsToNat (ds : List Char) : Nat :=
  ds.foldl (fun acc c => acc * 10 + (c.toNat - 48)) 0

mutual

/-- Fuel-indexed recursive-descent parser for one JSON value.  Model of the
grammar `json.loads` accepts, restricted to the subset used here: objects,
arrays, escape-free strings, integers, `true`, `false`, `null`. -/
def parseVal (fuel : Nat) (cs : List Char) : Option (PyVal × List Char) :=
  match fuel with
  | 0 => none
  | fuel + 1 =>
    match skipWs cs with
    | [] => none
    | c :: rest =>
      if c = '"' then
        match scanString rest with
        | some (body, rest2) => some (PyVal.pstr (String.mk body), rest2)
        | none => none
      else if c = 't' then
        match rest with
        | 'r' :: 'u' :: 'e' :: rest2 => some (PyVal.pbool true, rest2)
        | _ => none
      else if c = 'f' then
        match rest with
        | 'a' :: 'l' :: 's' :: 'e' :: rest2 => some (PyVal.pbool false, rest2)
        | _ => none
      else if c = 'n' then
        match rest with
        | 'u' :: 'l' :: 'l' :: rest2 => some (PyVal.pnone, rest2)
        | _ => none
      else if c = '-' then
        match scanDigits rest with
        | ([], _) => none
        | (ds, rest2) => some (PyVal.pint (-(digitsToNat ds : Int)), rest2)
      else if c.isDigit then
        match scanDigits (c :: rest) with
        | ([], _) => none
        | (ds, rest2) => some (PyVal.pint (digitsToNat ds), rest2)
      else if c = '[' then
        match skipWs rest with
        | ']' :: rest2 => some (PyVal.plist [], rest2)
        | _ => parseArrayItems fuel rest []
      else if c = lbraceC then
        match skipWs rest with
        | d :: rest2 =>
          if d = rbraceC then some (PyVal.pdict [], rest2)
          else parseObjectItems fuel rest []
        | [] => none
      else none

/-- Parse the remaining items of a JSON array (after `[`). -/
def parseArrayItems (fuel : Nat) (cs : List Char) (acc : List PyVal) :
    Option (PyVal × List Char) :=
  match fuel with
  | 0 => none
  | fuel + 1 =>
    match parseVal fuel cs with
    | none => none
    | some (v, rest) =>
      match skipWs rest with
      | ',' :: rest2 => parseArrayItems fuel rest2 (acc ++ [v])
      | ']' :: rest2 => some (PyVal.plist (acc ++ [v]), rest2)
      | _ => none

/-- Parse the remaining members of a JSON object (after the open brace). -/
def parseObjectItems (fuel : Nat) (cs : List Char) (acc : List (String × PyVal)) :
    Option (PyVal × List Char) :=
  match fuel with
  | 0 => none
  | fuel + 1 =>
    match skipWs cs with
    | '"' :: rest =>
      match scanString rest with
      | none => none
      | some (key, rest2) =>
        match skipWs rest2 with
        | ':' :: rest3 =>
          match parseVal fuel rest3 with
          | none => none
          | some (v, rest4) =>
            match skipWs rest4 with
            | ',' :: rest5 => parseObjectItems fuel rest5 (acc ++ [(String.mk key, v)])
            | d :: rest5 =>
              if d = rbraceC then some (PyVal.pdict (acc ++ [(String.mk key, v)]), rest5)
              else none
            | [] => none
        | _ => none
    | _ => none

end

end JsonModel

/-- Model of Python's `json.loads`: parse one JSON document, requiring the
whole input to be consumed. -/
def json_loads (s : String) : Option PyVal :=
  match JsonModel.parseVal (s.length + 1) s.data with
  | some (v, rest) => if JsonModel.skipWs rest = [] then some v else none
  | none => none

/-- One proposed tool invocation in a backend response: the tool name and the
argument payload (`none` models a response whose tool-call entry has no
`args` key). -/
structure ToolCall where
  name : String
  args : Option PyVal

/-- One backend interaction: either the transport raised, or the backend
replied with a (possibly empty) list of tool calls and optional free-text
content. -/
inductive BackendResult where
  | raised
  | reply (toolCalls : List ToolCall) (content : Option String)

/-- The typed failures `invoke_with_tools` can surface: the `ValueError`
raised when a string argument payload fails JSON parsing (the spec's
`ArgumentParseError`), the `ValueError` raised after exhausting all retries
(the spec's `ToolCallRequiredError`), and a re-raised backend transport
exception. -/
inductive InvokeError where
  | argumentParse
  | toolCallRequired
  | transport
deriving DecidableEq, Repr

/-- Apply the caller-supplied `response_parser` when one was given
(`agent_invoker.py` lines 105-108). -/
def applyTransform (transform : Option (PyVal → PyVal)) (v : PyVal) : PyVal :=
  match transform with
  | some f => f v
  | none => v

/-- Outcome of processing one backend reply inside the retry loop. -/
inductive StepResult where
  | success (v : PyVal)
  | parseError
  | noToolCall

/-- Body of one loop iteration of `invoke_with_tools` on a non-raising
backend reply (`agent_invoker.py` lines 89-116): take the first tool call;
its `args` payload defaults to the empty dict when absent; a dict payload is
accepted as-is, a string payload goes through `json.loads` recovery (parse
failure raises `ValueError`), any other payload makes `loads` raise; with no
tool call, `auto` mode returns the free-text content wrapped as a dict. -/
def stepOfResponse (transform : Option (PyVal → PyVal)) (tool_choice : String)
    (toolCalls : List ToolCall) (content : Option String) : StepResult :=
  match toolCalls with
  | tc :: _ =>
    match tc.args.getD (PyVal.pdict []) with
    | PyVal.pdict m => StepResult.success (applyTransform transform (PyVal.pdict m))
    | PyVal.pstr s =>
      match json_loads s with
      | some v => StepResult.success (applyTransform transform v)
      | none => StepResult.parseError
    | _ => StepResult.parseError
  | [] =>
    match content with
    | some text =>
      if tool_choice = "auto" then
        StepResult.success (PyVal.pdict [("response", PyVal.pstr text)])
      else StepResult.noToolCall
    | none => StepResult.noToolCall

/-- The outcome of attempt `i` against the backend oracle: `none` when the
backend raised, otherwise the processed reply. -/
def attemptOutcome (transform : Option (PyVal → PyVal)) (tool_choice : String)
    (backend : Nat → BackendResult) (i : Nat) : Option StepResult :=
  match backend i with
  | BackendResult.raised => none
  | BackendResult.reply tcs content => some (stepOfResponse transform tool_choice tcs content)

namespace AgentInvoker

/-- The retry loop of `invoke_with_tools` (`agent_invoker.py` lines 81-123),
starting at attempt number `attempt` with `remaining` attempts left.  Returns
the result together with the number of backend calls issued.  A raised
backend exception — including the `ValueError` the loop body itself raises on
a string-payload parse failure, since that `raise` sits inside the `try` —
is re-raised on the last attempt and otherwise retried; a reply with no tool
call (outside the `auto` text path) just continues; exhausting the loop
raises the final `ValueError`. -/
def invokeFrom (transform : Option (PyVal → PyVal)) (tool_choice : String)
    (backend : Nat → BackendResult) (attempt : Nat) :
    Nat → Except InvokeError PyVal × Nat
  | 0 => (Except.error InvokeError.toolCallRequired, 0)
  | remaining + 1 =>
    match attemptOutcome transform tool_choice backend attempt with
    | none =>
      if remaining = 0 then (Except.error InvokeError.transport, 1)
      else
        let next := invokeFrom transform tool_choice backend (attempt + 1) remaining
        (next.1, next.2 + 1)
    | some (StepResult.success v) => (Except.ok v, 1)
    | some StepResult.parseError =>
      if remaining = 0 then (Except.error InvokeError.argumentParse, 1)
      else
        let next := invokeFrom transform tool_choice backend (attempt + 1) remaining
        (next.1, next.2 + 1)
    | some StepResult.noToolCall =>
      let next := invokeFrom transform tool_choice backend (attempt + 1) remaining
      (next.1, next.2 + 1)

/-- `AgentInvoker.invoke_with_tools`: run attempts `1 .. max_retries` against
the backend oracle; result plus number of backend calls. -/
def invoke_with_tools (transform : Option (PyVal → PyVal)) (tool_choice : String)
    (max_retries : Nat) (backend : Nat → BackendResult) :
    Except InvokeError PyVal × Nat :=
  invokeFrom transform tool_choice backend 1 max_retries

/-- `AgentInvoker.invoke_with_conversation` (`agent_invoker.py` lines
154-185): with a non-empty tool list and a reply carrying tool calls, the
first call's `args` payload (defaulted to the empty dict) is returned
**as-is** — no dict check and no JSON recovery; otherwise the free-text
content is wrapped as a dict. -/
def invoke_with_conversation (tools : List PyVal) (toolCalls : List ToolCall)
    (content : String) : PyVal :=
  if tools.isEmpty then PyVal.pdict [("response", PyVal.pstr content)]
  else
    match toolCalls with
    | tc :: _ => tc.args.getD (PyVal.pdict [])
    | [] => PyVal.pdict [("response", PyVal.pstr content)]

end AgentInvoker

/-- Sanity check of the `json.loads` model on the spec's bad-JSON literal. -/
theorem json_loads_bad : json_loads ("\x7bbad json") = none := rfl

/-- Sanity check of the `json.loads` model on an object literal. -/
theorem json_loads_obj : json_loads ("\x7b\"a\": 2, \"b\": 3\x7d") =
    some (PyVal.pdict [("a", PyVal.pint 2), ("b", PyVal.pint 3)]) := rfl

/-- The typed failures of the resource loaders: the `ResourceNotFoundError`
of `prompt_tool_loader.py`, the `JSONDecodeError` a bad tools file raises
(the spec's `SchemaDecodeError`), the `ValueError` raised by
`PromptLoader.format` on a missing template variable (the spec's
`MissingVariableError`), and the `ValueError` Python's `str.format` raises on
a malformed template (single unmatched brace), which `format` does not catch. -/
inductive LoadError where
  | resourceNotFound
  | schemaDecode
  | missingVariable (name : String)
  | badFormat
deriving DecidableEq, Repr

/-- Lookup in an association-list model of a Python dict. -/
def cacheLookup {A : Type} : List (String × A) → String → Option A
  | [], _ => none
  | (k, v) :: rest, key => if k = key then some v else cacheLookup rest key

namespace PromptLoader

/-- `PromptLoader.load` (`prompt_tool_loader.py` lines 53-88).  The disk is a
partial map from filename to raw file content; the cache is an association
list.  Returns the result, the cache after the call, and the number of disk
reads performed (the `exists` check is not a read).  A cache hit is served
without touching the disk; otherwise a missing path raises
`ResourceNotFoundError`, and a present file is read, stripped, and cached
under the exact filename before returning — whether or not `use_cache` was
set. -/
def load (disk : String → Option String) (cache : List (String × String))
    (filename : String) (use_cache : Bool) :
    Except LoadError String × List (String × String) × Nat :=
  match (if use_cache then cacheLookup cache filename else none) with
  | some v => (Except.ok v, cache, 0)
  | none =>
    match disk filename with
    | none => (Except.error LoadError.resourceNotFound, cache, 0)
    | some raw =>
      let content := pyStrip raw
      (Except.ok content, (filename, content) :: cache, 1)

end PromptLoader

/-- Split a template at the closing brace of a placeholder: the key
characters and the rest of the input after the brace. -/
def splitKey : List Char → Option (List Char × List Char)
  | [] => none
  | c :: cs =>
    if c = rbraceC then some ([], cs)
    else
      match splitKey cs with
      | some (k, rest) => some (c :: k, rest)
      | none => none

theorem splitKey_length {cs k rest : List Char}
    (h : splitKey cs = some (k, rest)) : rest.length < cs.length := by
  induction cs generalizing k rest with
  | nil => simp [splitKey] at h
  | cons c cs ih =>
    simp only [splitKey] at h
    split at h
    · cases h
      simp
    · cases hsk : splitKey cs with
      | none => rw [hsk] at h; cases h
      | some p =>
        obtain ⟨k2, rest2⟩ := p
        rw [hsk] at h
        cases h
        have := ih hsk
        simp only [List.length_cons]
        omega

/-- Model of Python's `str.format` scan over the template characters,
restricted to named placeholders and doubled-brace escapes (the only forms
the repository's prompt templates use): literal characters are copied, a
doubled brace emits one brace, a `\x7bkey\x7d` placeholder is replaced by the
value bound to `key` (a missing key raises `KeyError(key)`, modelled as
`missingVariable`), and an unmatched single brace raises `ValueError`
(modelled as `badFormat`). -/
def fmtCore (vars : List (String × String)) : List Char → Except LoadError (List Char)
  | [] => Except.ok []
  | c :: cs =>
    if c = lbraceC then
      match cs with
      | [] => Except.error LoadError.badFormat
      | d :: ds =>
        if d = lbraceC then (fmtCore vars ds).map (fun t => lbraceC :: t)
        else
          match h : splitKey (d :: ds) with
          | none => Except.error LoadError.badFormat
          | some (k, rest) =>
            match cacheLookup vars (String.mk k) with
            | none => Except.error (LoadError.missingVariable (String.mk k))
            | some v => (fmtCore vars rest).map (fun t => v.data ++ t)
    else if c = rbraceC then
      match cs with
      | [] => Except.error LoadError.badFormat
      | d :: ds =>
        if d = rbraceC then (fmtCore vars ds).map (fun t => rbraceC :: t)
        else Except.error LoadError.badFormat
    else (fmtCore vars cs).map (fun t => c :: t)
termination_by cs => cs.length
decreasing_by
  · simp_wf
    omega
  · simp_wf
    have := splitKey_length h
    simp only [List.length_cons] at this ⊢
    omega
  · simp_wf
    omega
  · simp_wf

/-- The placeholder keys a template references, in scan order (same scan as
`fmtCore`, independent of the supplied variables). -/
def placeholderKeys : List Char → List String
  | [] => []
  | c :: cs =>
    if c = lbraceC then
      match cs with
      | [] => []
      | d :: ds =>
        if d = lbraceC then placeholderKeys ds
        else
          match h : splitKey (d :: ds) with
          | none => []
          | some (k, rest) => String.mk k :: placeholderKeys rest
    else if c = rbraceC then
      match cs with
      | [] => []
      | d :: ds => if d = rbraceC then placeholderKeys ds else []
    else placeholderKeys cs
termination_by cs => cs.length
decreasing_by
  · simp_wf
    omega
  · simp_wf
    have := splitKey_length h
    simp only [List.length_cons] at this ⊢
    omega
  · simp_wf
    omega
  · simp_wf

/-- Whether the template scan completes without a malformed-brace failure
(independent of the supplied variables). -/
def fmtWellFormed : List Char → Bool
  | [] => true
  | c :: cs =>
    if c = lbraceC then
      match cs with
      | [] => false
      | d :: ds =>
        if d = lbraceC then fmtWellFormed ds
        else
          match h : splitKey (d :: ds) with
          | none => false
          | some (_, rest) => fmtWellFormed rest
    else if c = rbraceC then
      match cs with
      | [] => false
      | d :: ds => if d = rbraceC then fmtWellFormed ds else false
    else fmtWellFormed cs
termination_by cs => cs.length
decreasing_by
  · simp_wf
    omega
  · simp_wf
    have := splitKey_length h
    simp only [List.length_cons] at this ⊢
    omega
  · simp_wf
    omega
  · simp_wf

/-- Model of Python's `template.format(**vars)` on a template string. -/
def pyFormat (template : String) (vars : List (String × String)) :
    Except LoadError String :=
  match fmtCore vars template.data with
  | Except.ok out => Except.ok (String.mk out)
  | Except.error e => Except.error e

/-- `PromptLoader.format` (`prompt_tool_loader.py` lines 90-109): load the
prompt (through the cache), then substitute; a `KeyError` from the
substitution is re-raised as the typed missing-variable `ValueError`. -/
def PromptLoader.format (disk : String → Option String)
    (cache : List (String × String)) (filename : String)
    (vars : List (String × String)) :
    Except LoadError String × List (String × String) × Nat :=
  match PromptLoader.load disk cache filename true with
  | (Except.error e, cache2, reads) => (Except.error e, cache2, reads)
  | (Except.ok t, cache2, reads) => (pyFormat t vars, cache2, reads)

namespace ToolsLoader

/-- `ToolsLoader.load` (`prompt_tool_loader.py` lines 179-215).  Same shape
as `PromptLoader.load`, except the file content must parse as JSON: a parse
failure raises `JSONDecodeError` after the disk read, and only a successful
parse populates the cache. -/
def load (disk : String → Option String) (cache : List (String × PyVal))
    (filename : String) (use_cache : Bool) :
    Except LoadError PyVal × List (String × PyVal) × Nat :=
  match (if use_cache then cacheLookup cache filename else none) with
  | some v => (Except.ok v, cache, 0)
  | none =>
    match disk filename with
    | none => (Except.error LoadError.resourceNotFound, cache, 0)
    | some raw =>
      match json_loads raw with
      | none => (Except.error LoadError.schemaDecode, cache, 1)
      | some v => (Except.ok v, (filename, v) :: cache, 1)

end ToolsLoader

theorem pyFormat_hi_ok :
    pyFormat ("Hi \x7bname\x7d") [("name", "Ana")] = Except.ok ("Hi Ana") := by
  simp [pyFormat, fmtCore, splitKey, lbraceC, rbraceC, Except.map, cacheLookup]

theorem pyFormat_hi_missing : pyFormat ("Hi \x7bname\x7d") [] =
    Except.error (LoadError.missingVariable ("name")) := by
  simp [pyFormat, fmtCore, splitKey, lbraceC, rbraceC, Except.map, cacheLookup]

/-- One-step unfolding of the retry loop. -/
theorem invokeFrom_succ (transform : Option (PyVal → PyVal)) (tool_choice : String)
    (backend : Nat → BackendResult) (a r : Nat) :
    AgentInvoker.invokeFrom transform tool_choice backend a (r + 1) =
      match attemptOutcome transform tool_choice backend a with
      | none =>
        if r = 0 then (Except.error InvokeError.transport, 1)
        else ((AgentInvoker.invokeFrom transform tool_choice backend (a + 1) r).1,
          (AgentInvoker.invokeFrom transform tool_choice backend (a + 1) r).2 + 1)
      | some (StepResult.success v) => (Except.ok v, 1)
      | some StepResult.parseError =>
        if r = 0 then (Except.error InvokeError.argumentParse, 1)
        else ((AgentInvoker.invokeFrom transform tool_choice backend (a + 1) r).1,
          (AgentInvoker.invokeFrom transform tool_choice backend (a + 1) r).2 + 1)
      | some StepResult.noToolCall =>
        ((AgentInvoker.invokeFrom transform tool_choice backend (a + 1) r).1,
          (AgentInvoker.invokeFrom transform tool_choice backend (a + 1) r).2 + 1) := rfl

theorem step_no_tool_call (transform : Option (PyVal → PyVal)) (tool_choice : String)
    (htc : tool_choice ≠ "auto") (c : Option String) :
    stepOfResponse transform tool_choice [] c = StepResult.noToolCall := by
  cases c with
  | none => rfl
  | some t => simp [stepOfResponse, htc]

/-- A run in which every attempt yields a reply with no usable tool call (and
no `auto` text fallback) exhausts the loop: it issues one backend call per
attempt and ends in the final retries-exhausted error. -/
theorem invokeFrom_all_no_tool_call (transform : Option (PyVal → PyVal))
    (tool_choice : String) (backend : Nat → BackendResult) :
    ∀ (r a : Nat),
      (∀ j, j < r → attemptOutcome transform tool_choice backend (a + j) =
        some StepResult.noToolCall) →
      AgentInvoker.invokeFrom transform tool_choice backend a r =
        (Except.error InvokeError.toolCallRequired, r) := by
  intro r
  induction r with
  | zero => intro a _; rfl
  | succ r ih =>
    intro a h
    have h0 : attemptOutcome transform tool_choice backend a =
        some StepResult.noToolCall := by
      have := h 0 (Nat.succ_pos r)
      simpa using this
    have hrec := ih (a + 1) (fun j hj => by
      have := h (j + 1) (by omega)
      simpa [Nat.add_comm, Nat.add_assoc, Nat.add_left_comm] using this)
    simp [AgentInvoker.invokeFrom, h0, hrec]

/-- A run in which every attempt yields a string-payload parse failure keeps
retrying (the `ValueError` is caught by the loop's generic handler) and
re-raises the parse error only on the final attempt. -/
theorem invokeFrom_all_parse_error (transform : Option (PyVal → PyVal))
    (tool_choice : String) (backend : Nat → BackendResult) :
    ∀ (r a : Nat), 1 ≤ r →
      (∀ j, j < r → attemptOutcome transform tool_choice backend (a + j) =
        some StepResult.parseError) →
      AgentInvoker.invokeFrom transform tool_choice backend a r =
        (Except.error InvokeError.argumentParse, r) := by
  intro r
  induction r with
  | zero => intro a h; omega
  | succ r ih =>
    intro a _ h
    have h0 : attemptOutcome transform tool_choice backend a =
        some StepResult.parseError := by
      have := h 0 (Nat.succ_pos r)
      simpa using this
    cases r with
    | zero => simp [AgentInvoker.invokeFrom, h0]
    | succ r2 =>
      have hrec := ih (a + 1) (by omega) (fun j hj => by
        have := h (j + 1) (by omega)
        simpa [Nat.add_comm, Nat.add_assoc, Nat.add_left_comm] using this)
      rw [invokeFrom_succ, h0]
      simp [hrec]

/-- If no attempt before offset `j` succeeds and the attempt at offset `j`
succeeds with value `v`, the loop returns `v` after exactly `j + 1` backend
calls: attempts are strictly ordered and nothing runs after a success. -/
theorem invokeFrom_first_success (transform : Option (PyVal → PyVal))
    (tool_choice : String) (backend : Nat → BackendResult) :
    ∀ (j r a : Nat) (v : PyVal), j < r →
      (∀ i, i < j → ∀ w, attemptOutcome transform tool_choice backend (a + i) ≠
        some (StepResult.success w)) →
      attemptOutcome transform tool_choice backend (a + j) =
        some (StepResult.success v) →
      AgentInvoker.invokeFrom transform tool_choice backend a r =
        (Except.ok v, j + 1) := by
  intro j
  induction j with
  | zero =>
    intro r a v hr _ hj
    cases r with
    | zero => omega
    | succ r2 =>
      simp only [Nat.add_zero] at hj
      simp [AgentInvoker.invokeFrom, hj]
  | succ j ih =>
    intro r a v hr hbefore hj
    cases r with
    | zero => omega
    | succ r2 =>
      have hr2 : j < r2 := by omega
      have hr2pos : r2 ≠ 0 := by omega
      have hrec := ih r2 (a + 1) v hr2
        (fun i hi w => by
          have := hbefore (i + 1) (by omega) w
          simpa [Nat.add_comm, Nat.add_assoc, Nat.add_left_comm] using this)
        (by
          have : a + 1 + j = a + (j + 1) := by omega
          rw [this]
          exact hj)
      have h0 := hbefore 0 (Nat.succ_pos j)
      simp only [Nat.add_zero] at h0
      cases hout : attemptOutcome transform tool_choice backend a with
      | none => simp [AgentInvoker.invokeFrom, hout, hr2pos, hrec]
      | some st =>
        cases st with
        | success w => exact absurd hout (h0 w)
        | parseError => simp [AgentInvoker.invokeFrom, hout, hr2pos, hrec]
        | noToolCall => simp [AgentInvoker.invokeFrom, hout, hrec]

/-- A first tool call whose payload is a dict (or a string that parses as
JSON) makes the step succeed. -/
theorem step_success_of_qualifying (transform : Option (PyVal → PyVal))
    (tool_choice : String) (tcall : ToolCall) (rest : List ToolCall)
    (c : Option String)
    (h : (∃ m, tcall.args.getD (PyVal.pdict []) = PyVal.pdict m) ∨
      (∃ s j, tcall.args = some (PyVal.pstr s) ∧ json_loads s = some j)) :
    ∃ w, stepOfResponse transform tool_choice (tcall :: rest) c =
      StepResult.success w := by
  rcases h with ⟨m, hm⟩ | ⟨s, j, hs, hj⟩
  · exact ⟨applyTransform transform (PyVal.pdict m), by simp [stepOfResponse, hm]⟩
  · exact ⟨applyTransform transform j, by simp [stepOfResponse, hs, hj]⟩

/-- C1 (counterexample): claim C1 states that with `max_retries > 1` a
first-attempt string payload failing JSON parsing makes the whole invocation
fail immediately with the parse error after exactly 1 backend call.  On this
input (`max_retries = 2`, attempt 1 delivers the unparseable string payload
`\x7bbad json`, attempt 2 delivers a dict payload) the engine instead retries
and returns the attempt-2 dict successfully after 2 backend calls. -/
theorem C1_counterexample :
    AgentInvoker.invoke_with_tools none ("required") 2
      (fun n => if n = 1
        then BackendResult.reply [⟨"t", some (PyVal.pstr ("\x7bbad json"))⟩] none
        else BackendResult.reply [⟨"t", some (PyVal.pdict [("a", PyVal.pint 1)])⟩] none) =
      (Except.ok (PyVal.pdict [("a", PyVal.pint 1)]), 2) ∧
    ((Except.ok (PyVal.pdict [("a", PyVal.pint 1)]) : Except InvokeError PyVal), (2 : Nat)) ≠
      ((Except.error InvokeError.argumentParse : Except InvokeError PyVal), (1 : Nat)) := by
  refine ⟨rfl, ?_⟩
  intro h
  simp at h

/-- C1 (amended): the `ValueError` raised on a string-payload JSON parse
failure is raised inside the attempt's `try` block, so the loop's generic
handler catches it and retries it like any other attempt failure; the parse
error propagates only when the failure occurs on the final attempt.  In
particular, when every attempt of a run delivers a tool call whose string
payload fails JSON parsing, the engine performs exactly `max_retries` backend
calls and then fails with the parse error. -/
theorem C1_parse_failure_retried (transform : Option (PyVal → PyVal))
    (tool_choice : String) (backend : Nat → BackendResult) (N : Nat)
    (hN : 1 ≤ N)
    (h : ∀ i, 1 ≤ i → i ≤ N → ∃ name s rest c,
      backend i = BackendResult.reply (⟨name, some (PyVal.pstr s)⟩ :: rest) c ∧
      json_loads s = none) :
    AgentInvoker.invoke_with_tools transform tool_choice N backend =
      (Except.error InvokeError.argumentParse, N) := by
  apply invokeFrom_all_parse_error transform tool_choice backend N 1 hN
  intro j hj
  obtain ⟨name, s, rest, c, hb, hs⟩ := h (1 + j) (by omega) (by omega)
  simp [attemptOutcome, hb, stepOfResponse, hs]

/-- C1 (witness). -/
theorem C1_witness :
    AgentInvoker.invoke_with_tools none ("required") 2
      (fun _ => BackendResult.reply [⟨"t", some (PyVal.pstr ("\x7bbad"))⟩] none) =
      (Except.error InvokeError.argumentParse, 2) :=
  C1_parse_failure_retried none ("required") _ 2 (by omega)
    (fun i _ _ => ⟨"t", "\x7bbad", [], none, rfl, rfl⟩)

/-- C2: with `tool_choice = "required"` and a backend that replies (without
raising) carrying no tool call on every attempt, the engine performs exactly
`N = max_retries` backend calls and then raises the retries-exhausted
`ValueError` (the spec's `ToolCallRequiredError`). -/
theorem C2_required_exhaustion (transform : Option (PyVal → PyVal))
    (backend : Nat → BackendResult) (N : Nat) (hN : 1 ≤ N)
    (h : ∀ i, 1 ≤ i → i ≤ N → ∃ c, backend i = BackendResult.reply [] c) :
    AgentInvoker.invoke_with_tools transform ("required") N backend =
      (Except.error InvokeError.toolCallRequired, N) := by
  apply invokeFrom_all_no_tool_call transform ("required") backend N 1
  intro j hj
  obtain ⟨c, hb⟩ := h (1 + j) (by omega) (by omega)
  simp only [attemptOutcome, hb]
  rw [step_no_tool_call transform ("required") (by simp) c]

/-- C2 (witness). -/
theorem C2_witness :
    AgentInvoker.invoke_with_tools none ("required") 3
      (fun _ => BackendResult.reply [] (some ("no tool"))) =
      (Except.error InvokeError.toolCallRequired, 3) :=
  C2_required_exhaustion none _ 3 (by omega) (fun i _ _ => ⟨some ("no tool"), rfl⟩)

/-- C3: if no attempt before `k` succeeds and attempt `k ≤ max_retries`
delivers a qualifying tool call (first tool call with a dict payload, or a
string payload that parses as JSON), the engine performs exactly `k` backend
calls and returns successfully — no call is issued after the success. -/
theorem C3_first_success_k_calls (transform : Option (PyVal → PyVal))
    (tool_choice : String) (backend : Nat → BackendResult) (N k : Nat)
    (h1 : 1 ≤ k) (h2 : k ≤ N)
    (h3 : ∀ i, 1 ≤ i → i < k → ∀ w,
      attemptOutcome transform tool_choice backend i ≠ some (StepResult.success w))
    (h4 : ∃ tcall rest c, backend k = BackendResult.reply (tcall :: rest) c ∧
      ((∃ m, ToolCall.args tcall = some (PyVal.pdict m)) ∨
       (∃ s j, ToolCall.args tcall = some (PyVal.pstr s) ∧ json_loads s = some j))) :
    ∃ v, AgentInvoker.invoke_with_tools transform tool_choice N backend =
      (Except.ok v, k) := by
  obtain ⟨tcall, rest, c, hb, hq⟩ := h4
  have hq2 : (∃ m, tcall.args.getD (PyVal.pdict []) = PyVal.pdict m) ∨
      (∃ s j, tcall.args = some (PyVal.pstr s) ∧ json_loads s = some j) := by
    rcases hq with ⟨m, hm⟩ | hstr
    · exact Or.inl ⟨m, by rw [hm]; rfl⟩
    · exact Or.inr hstr
  obtain ⟨w, hw⟩ := step_success_of_qualifying transform tool_choice tcall rest c hq2
  refine ⟨w, ?_⟩
  have hmain := invokeFrom_first_success transform tool_choice backend (k - 1) N 1 w
    (by omega)
    (fun i hi w2 => by
      have := h3 (1 + i) (by omega) (by omega) w2
      exact this)
    (by
      have hk : 1 + (k - 1) = k := by omega
      rw [hk]
      simp only [attemptOutcome, hb]
      rw [hw])
  have hk2 : k - 1 + 1 = k := by omega
  rw [hk2] at hmain
  exact hmain

/-- C3 (witness): no tool call on attempt 1, a dict-payload tool call on
attempt 2, `max_retries = 3`: success after exactly 2 backend calls. -/
theorem C3_witness :
    ∃ v, AgentInvoker.invoke_with_tools none ("required") 3
      (fun n => if n = 2
        then BackendResult.reply [⟨"t", some (PyVal.pdict [("a", PyVal.pint 2)])⟩] none
        else BackendResult.reply [] (some ("refused"))) = (Except.ok v, 2) :=
  C3_first_success_k_calls none ("required") _ 3 2 (by omega) (by omega)
    (fun i hi1 hi2 w hw => by
      have hi : i = 1 := by omega
      rw [hi] at hw
      exact StepResult.noConfusion (Option.some.inj hw))
    ⟨⟨"t", some (PyVal.pdict [("a", PyVal.pint 2)])⟩, [], none, rfl,
      Or.inl ⟨[("a", PyVal.pint 2)], rfl⟩⟩

/-- C4: only the first tool call of a response matters.  (i) The processing
of a reply whose tool-call list starts with `tcall` is the same whatever the
later tool calls (and whatever the free-text content) are; (ii) when that
first call's payload is a dict, the invocation returns it — passed through
the caller-supplied `response_parser` when one was given — after that very
attempt; (iii) `invoke_with_conversation` likewise returns the first call's
payload. -/
theorem C4_first_tool_call_only :
    (∀ (transform : Option (PyVal → PyVal)) (tool_choice : String)
      (tcall : ToolCall) (rest rest2 : List ToolCall) (c c2 : Option String),
      stepOfResponse transform tool_choice (tcall :: rest) c =
        stepOfResponse transform tool_choice (tcall :: rest2) c2) ∧
    (∀ (transform : Option (PyVal → PyVal)) (tool_choice : String)
      (tcall : ToolCall) (rest : List ToolCall) (c : Option String)
      (m : List (String × PyVal)) (N : Nat) (backend : Nat → BackendResult),
      1 ≤ N → ToolCall.args tcall = some (PyVal.pdict m) →
      backend 1 = BackendResult.reply (tcall :: rest) c →
      AgentInvoker.invoke_with_tools transform tool_choice N backend =
        (Except.ok (applyTransform transform (PyVal.pdict m)), 1)) ∧
    (∀ (tools : List PyVal) (tcall : ToolCall) (rest : List ToolCall)
      (content : String), tools ≠ [] →
      AgentInvoker.invoke_with_conversation tools (tcall :: rest) content =
        (ToolCall.args tcall).getD (PyVal.pdict [])) := by
  refine ⟨fun transform tool_choice tcall rest rest2 c c2 => rfl, ?_, ?_⟩
  · intro transform tool_choice tcall rest c m N backend hN hm hb
    exact invokeFrom_first_success transform tool_choice backend 0 N 1
      (applyTransform transform (PyVal.pdict m)) (by omega) (fun i hi w => by omega)
      (by
        simp only [Nat.add_zero, attemptOutcome, hb]
        simp [stepOfResponse, hm])
  · intro tools tcall rest content htools
    simp [AgentInvoker.invoke_with_conversation, List.isEmpty_iff, htools]

/-- C4 (witness): a response proposing two tool calls; the result is the
first call's dict payload after 1 backend call, the second call ignored. -/
theorem C4_witness :
    AgentInvoker.invoke_with_tools none ("required") 3
      (fun _ => BackendResult.reply
        [⟨"t", some (PyVal.pdict [("a", PyVal.pint 2)])⟩,
         ⟨"u", some (PyVal.pstr ("ignored"))⟩] none) =
      (Except.ok (PyVal.pdict [("a", PyVal.pint 2)]), 1) :=
  C4_first_tool_call_only.2.1 none ("required")
    ⟨"t", some (PyVal.pdict [("a", PyVal.pint 2)])⟩
    [⟨"u", some (PyVal.pstr ("ignored"))⟩] none [("a", PyVal.pint 2)] 3 _
    (by omega) rfl rfl

/-- C5 (code defect witness): `invoke_with_conversation` returns the first
tool call's argument payload without the dict check and JSON recovery that
`invoke_with_tools` performs, so a string payload is handed back to the
caller in its raw, unparsed form — not a mapping, contradicting the claim
(and the method's own `Dict[str, Any]` return annotation and docstring). -/
theorem C5_code_eval :
    AgentInvoker.invoke_with_conversation [PyVal.pdict [("name", PyVal.pstr ("t"))]]
      [⟨"t", some (PyVal.pstr ("\x7bbad json"))⟩] "hi" =
      PyVal.pstr ("\x7bbad json") ∧
    (∀ entries, PyVal.pstr ("\x7bbad json") ≠ PyVal.pdict entries) :=
  ⟨rfl, fun entries h => PyVal.noConfusion h⟩

/-- C6: in `auto` mode a reply with no tool call but with free-text content
succeeds immediately — the content wrapped as `\x7b"response": content\x7d`
— after exactly 1 backend call when it happens on the first attempt; and
this text-fallback success path exists only in `auto` mode: under any other
`tool_choice` a reply with no tool call just continues the loop. -/
theorem C6_auto_text_fallback :
    (∀ (transform : Option (PyVal → PyVal)) (backend : Nat → BackendResult)
      (content : String) (N : Nat), 1 ≤ N →
      backend 1 = BackendResult.reply [] (some content) →
      AgentInvoker.invoke_with_tools transform ("auto") N backend =
        (Except.ok (PyVal.pdict [("response", PyVal.pstr content)]), 1)) ∧
    (∀ (transform : Option (PyVal → PyVal)) (tool_choice : String)
      (c : Option String), tool_choice ≠ "auto" →
      stepOfResponse transform tool_choice [] c = StepResult.noToolCall) := by
  constructor
  · intro transform backend content N hN hb
    exact invokeFrom_first_success transform ("auto") backend 0 N 1
      (PyVal.pdict [("response", PyVal.pstr content)]) (by omega)
      (fun i hi w => by omega)
      (by
        simp only [Nat.add_zero, attemptOutcome, hb]
        simp [stepOfResponse])
  · intro transform tool_choice c htc
    exact step_no_tool_call transform tool_choice htc c

/-- C6 (witness): the spec's scenario — `tool_choice = "auto"`, backend
returns no tool call but content `"42"` — yields `\x7b"response": "42"\x7d`
after 1 backend call. -/
theorem C6_witness :
    AgentInvoker.invoke_with_tools none ("auto") 3
      (fun _ => BackendResult.reply [] (some ("42"))) =
      (Except.ok (PyVal.pdict [("response", PyVal.pstr ("42"))]), 1) :=
  C6_auto_text_fallback.1 none _ ("42") 3 (by omega) rfl

/-- C7 (counterexample): claim C7 states that *every* pair of cached loads of
the same name performs at most one disk read.  For a tools file that exists
but does not parse as JSON, the failed load is not cached, so each of the two
cached loads reads the disk: 2 disk reads. -/
theorem C7_counterexample :
    ¬ ((ToolsLoader.load (fun s => if s = ("tools.json") then some ("\x7bbad") else none)
          [] ("tools.json") true).2.2 +
       (ToolsLoader.load (fun s => if s = ("tools.json") then some ("\x7bbad") else none)
          (ToolsLoader.load (fun s => if s = ("tools.json") then some ("\x7bbad") else none)
            [] ("tools.json") true).2.1
          ("tools.json") true).2.2 ≤ 1) := by
  decide

/-- C7 (amended): for a resource whose load succeeds (for the prompt loader,
the file exists; for the tools loader, it exists and parses as JSON), two
loads with `use_cache = true` perform at most one disk read in total and
return the same value; a load with `use_cache = false` always reads the
disk; and a successful load populates the cache keyed by the exact filename,
even when `use_cache = false`.  (Failed loads are not cached, so a
load that keeps failing — e.g. a tools file with invalid JSON — re-reads the
disk on every call.) -/
theorem C7_cache_behavior (diskP diskT : String → Option String)
    (cacheP : List (String × String)) (cacheT : List (String × PyVal))
    (f rawP rawT : String) (j : PyVal)
    (hP : diskP f = some rawP) (hT : diskT f = some rawT)
    (hj : json_loads rawT = some j) :
    ((PromptLoader.load diskP cacheP f true).2.2 +
      (PromptLoader.load diskP (PromptLoader.load diskP cacheP f true).2.1 f true).2.2 ≤ 1 ∧
     (PromptLoader.load diskP (PromptLoader.load diskP cacheP f true).2.1 f true).1 =
       (PromptLoader.load diskP cacheP f true).1) ∧
    ((ToolsLoader.load diskT cacheT f true).2.2 +
      (ToolsLoader.load diskT (ToolsLoader.load diskT cacheT f true).2.1 f true).2.2 ≤ 1 ∧
     (ToolsLoader.load diskT (ToolsLoader.load diskT cacheT f true).2.1 f true).1 =
       (ToolsLoader.load diskT cacheT f true).1) ∧
    (PromptLoader.load diskP cacheP f false).2.2 = 1 ∧
    (ToolsLoader.load diskT cacheT f false).2.2 = 1 ∧
    cacheLookup (PromptLoader.load diskP cacheP f false).2.1 f = some (pyStrip rawP) ∧
    cacheLookup (ToolsLoader.load diskT cacheT f false).2.1 f = some j := by
  refine ⟨?_, ?_, ?_, ?_, ?_, ?_⟩
  · cases hc : cacheLookup cacheP f with
    | some v => simp [PromptLoader.load, hc]
    | none => simp [PromptLoader.load, hc, hP, cacheLookup]
  · cases hc : cacheLookup cacheT f with
    | some v => simp [ToolsLoader.load, hc]
    | none => simp [ToolsLoader.load, hc, hT, hj, cacheLookup]
  · simp [PromptLoader.load, hP]
  · simp [ToolsLoader.load, hT, hj]
  · simp [PromptLoader.load, hP, cacheLookup]
  · simp [ToolsLoader.load, hT, hj, cacheLookup]

/-- C7 (witness). -/
theorem C7_witness :
    cacheLookup (PromptLoader.load (fun s => if s = ("cfg") then some ("  hi ") else none)
      [] ("cfg") false).2.1 ("cfg") = some ("hi") ∧
    cacheLookup (ToolsLoader.load (fun s => if s = ("cfg") then some ("\x7b\"a\": 2\x7d") else none)
      [] ("cfg") false).2.1 ("cfg") = some (PyVal.pdict [("a", PyVal.pint 2)]) := by
  have h := C7_cache_behavior
    (fun s => if s = ("cfg") then some ("  hi ") else none)
    (fun s => if s = ("cfg") then some ("\x7b\"a\": 2\x7d") else none)
    [] [] ("cfg") ("  hi ") ("\x7b\"a\": 2\x7d") (PyVal.pdict [("a", PyVal.pint 2)])
    rfl rfl rfl
  exact ⟨h.2.2.2.2.1, h.2.2.2.2.2⟩

/-- C8: a tools file that exists but fails JSON parsing makes
`ToolsLoader.load` raise the decode error after its single disk read and
leaves the cache exactly as it was; a missing file raises the not-found
error with no read; and more generally no failed load adds or changes any
cache entry. -/
theorem C8_schema_decode_not_cached (disk : String → Option String)
    (cache : List (String × PyVal)) (f raw : String) (u : Bool)
    (hc : cacheLookup cache f = none) :
    (disk f = some raw → json_loads raw = none →
      ToolsLoader.load disk cache f u =
        (Except.error LoadError.schemaDecode, cache, 1)) ∧
    (disk f = none →
      ToolsLoader.load disk cache f u =
        (Except.error LoadError.resourceNotFound, cache, 0)) ∧
    (∀ e, (ToolsLoader.load disk cache f u).1 = Except.error e →
      (ToolsLoader.load disk cache f u).2.1 = cache) := by
  refine ⟨?_, ?_, ?_⟩
  · intro hd hj
    cases u <;> simp [ToolsLoader.load, hc, hd, hj]
  · intro hd
    cases u <;> simp [ToolsLoader.load, hc, hd]
  · intro e
    cases u <;>
      simp only [ToolsLoader.load, hc] <;>
      cases hd : disk f <;>
      simp_all <;>
      cases hj : json_loads (by assumption) <;>
      simp_all

/-- C8 (witness). -/
theorem C8_witness :
    ToolsLoader.load (fun s => if s = ("t.json") then some ("\x7bbad") else none)
      [] ("t.json") true = (Except.error LoadError.schemaDecode, [], 1) ∧
    ToolsLoader.load (fun s => if s = ("t.json") then some ("\x7bbad") else none)
      [] ("missing.json") true = (Except.error LoadError.resourceNotFound, [], 0) := by
  constructor
  · exact (C8_schema_decode_not_cached
      (fun s => if s = ("t.json") then some ("\x7bbad") else none)
      [] ("t.json") ("\x7bbad") true rfl).1 rfl rfl
  · exact (C8_schema_decode_not_cached
      (fun s => if s = ("t.json") then some ("\x7bbad") else none)
      [] ("missing.json") ("\x7bbad") true rfl).2.1 rfl

/-- Stripping an all-whitespace string yields the empty string. -/
theorem pyStrip_all_space (raw : String)
    (h : ∀ c ∈ raw.data, pyIsSpace c = true) : pyStrip raw = "" := by
  unfold pyStrip
  have h1 : raw.data.dropWhile pyIsSpace = [] := List.dropWhile_eq_nil_iff.mpr h
  rw [h1]
  rfl

/-- C10: loading an existing prompt file that is not yet cached returns its
content with leading and trailing whitespace stripped (not the verbatim
bytes), performs one disk read, and caches the stripped value under the
exact filename; a file that is empty or all whitespace loads successfully as
the empty string (no error). -/
theorem C10_load_strips_and_caches (disk : String → Option String)
    (cache : List (String × String)) (f raw : String) (u : Bool)
    (hc : cacheLookup cache f = none) (hd : disk f = some raw) :
    PromptLoader.load disk cache f u =
      (Except.ok (pyStrip raw), (f, pyStrip raw) :: cache, 1) ∧
    ((∀ c ∈ raw.data, pyIsSpace c = true) →
      (PromptLoader.load disk cache f u).1 = Except.ok ("")) := by
  have hmain : PromptLoader.load disk cache f u =
      (Except.ok (pyStrip raw), (f, pyStrip raw) :: cache, 1) := by
    cases u <;> simp [PromptLoader.load, hc, hd]
  refine ⟨hmain, fun hsp => ?_⟩
  rw [hmain, pyStrip_all_space raw hsp]

/-- C10 (witness). -/
theorem C10_witness :
    PromptLoader.load (fun s => if s = ("a.txt") then some ("  x ") else none)
      [] ("a.txt") true = (Except.ok ("x"), [(("a.txt"), ("x"))], 1) ∧
    (PromptLoader.load (fun s => if s = ("w.txt") then some ("  \n ") else none)
      [] ("w.txt") true).1 = Except.ok ("") := by
  constructor
  · exact (C10_load_strips_and_caches
      (fun s => if s = ("a.txt") then some ("  x ") else none)
      [] ("a.txt") ("  x ") true rfl rfl).1
  · exact (C10_load_strips_and_caches
      (fun s => if s = ("w.txt") then some ("  \n ") else none)
      [] ("w.txt") ("  \n ") true rfl rfl).2 (by decide)

theorem rbrace_ne_lbrace : ¬ rbraceC = lbraceC := by decide

theorem wf_nil : fmtWellFormed [] = true := by
  rw [fmtWellFormed.eq_def]

theorem wf_lbrace_nil : fmtWellFormed [lbraceC] = false := by
  rw [fmtWellFormed.eq_def]
  simp

theorem wf_dbl_lbrace (cs : List Char) :
    fmtWellFormed (lbraceC :: lbraceC :: cs) = fmtWellFormed cs := by
  rw [fmtWellFormed.eq_def]
  simp

theorem wf_bad_split (c : Char) (cs : List Char) (hc : ¬ c = lbraceC)
    (hs : splitKey (c :: cs) = none) :
    fmtWellFormed (lbraceC :: c :: cs) = false := by
  rw [fmtWellFormed.eq_def]
  simp [hc]
  split
  · rfl
  · rename_i k2 rest2 heq
    rw [hs] at heq
    cases heq

theorem wf_placeholder (c : Char) (cs k rest : List Char) (hc : ¬ c = lbraceC)
    (hs : splitKey (c :: cs) = some (k, rest)) :
    fmtWellFormed (lbraceC :: c :: cs) = fmtWellFormed rest := by
  rw [fmtWellFormed.eq_def]
  simp [hc]
  split
  · rename_i heq
    rw [heq] at hs
    cases hs
  · rename_i k2 rest2 heq
    rw [hs] at heq
    cases heq
    rfl

theorem wf_rbrace_nil : fmtWellFormed [rbraceC] = false := by
  rw [fmtWellFormed.eq_def]
  simp [rbrace_ne_lbrace]

theorem wf_dbl_rbrace (cs : List Char) :
    fmtWellFormed (rbraceC :: rbraceC :: cs) = fmtWellFormed cs := by
  rw [fmtWellFormed.eq_def]
  simp [rbrace_ne_lbrace]

theorem wf_rbrace_bad (c : Char) (cs : List Char) (hc : ¬ c = rbraceC) :
    fmtWellFormed (rbraceC :: c :: cs) = false := by
  rw [fmtWellFormed.eq_def]
  simp [rbrace_ne_lbrace, hc]

theorem wf_other (c : Char) (cs : List Char) (h1 : ¬ c = lbraceC)
    (h2 : ¬ c = rbraceC) : fmtWellFormed (c :: cs) = fmtWellFormed cs := by
  rw [fmtWellFormed.eq_def]
  simp [h1, h2]

theorem keys_nil : placeholderKeys [] = [] := by
  rw [placeholderKeys.eq_def]

theorem keys_dbl_lbrace (cs : List Char) :
    placeholderKeys (lbraceC :: lbraceC :: cs) = placeholderKeys cs := by
  rw [placeholderKeys.eq_def]
  simp

theorem keys_placeholder (c : Char) (cs k rest : List Char) (hc : ¬ c = lbraceC)
    (hs : splitKey (c :: cs) = some (k, rest)) :
    placeholderKeys (lbraceC :: c :: cs) = String.mk k :: placeholderKeys rest := by
  rw [placeholderKeys.eq_def]
  simp [hc]
  split
  · rename_i heq
    rw [heq] at hs
    cases hs
  · rename_i k2 rest2 heq
    rw [hs] at heq
    cases heq
    rfl

theorem keys_dbl_rbrace (cs : List Char) :
    placeholderKeys (rbraceC :: rbraceC :: cs) = placeholderKeys cs := by
  rw [placeholderKeys.eq_def]
  simp [rbrace_ne_lbrace]

theorem keys_other (c : Char) (cs : List Char) (h1 : ¬ c = lbraceC)
    (h2 : ¬ c = rbraceC) : placeholderKeys (c :: cs) = placeholderKeys cs := by
  rw [placeholderKeys.eq_def]
  simp [h1, h2]

theorem fmt_dbl_lbrace (vars : List (String × String)) (cs : List Char) :
    fmtCore vars (lbraceC :: lbraceC :: cs) =
      (fmtCore vars cs).map (fun t => lbraceC :: t) := by
  rw [fmtCore.eq_def]
  simp

theorem fmt_placeholder (vars : List (String × String)) (c : Char)
    (cs k rest : List Char) (hc : ¬ c = lbraceC)
    (hs : splitKey (c :: cs) = some (k, rest)) :
    fmtCore vars (lbraceC :: c :: cs) =
      match cacheLookup vars (String.mk k) with
      | none => Except.error (LoadError.missingVariable (String.mk k))
      | some v => (fmtCore vars rest).map (fun t => v.data ++ t) := by
  rw [fmtCore.eq_def]
  simp [hc]
  split
  · rename_i heq
    rw [heq] at hs
    cases hs
  · rename_i k2 rest2 heq
    rw [hs] at heq
    cases heq
    rfl

theorem fmt_dbl_rbrace (vars : List (String × String)) (cs : List Char) :
    fmtCore vars (rbraceC :: rbraceC :: cs) =
      (fmtCore vars cs).map (fun t => rbraceC :: t) := by
  rw [fmtCore.eq_def]
  simp [rbrace_ne_lbrace]

theorem fmt_other (vars : List (String × String)) (c : Char) (cs : List Char)
    (h1 : ¬ c = lbraceC) (h2 : ¬ c = rbraceC) :
    fmtCore vars (c :: cs) = (fmtCore vars cs).map (fun t => c :: t) := by
  rw [fmtCore.eq_def]
  simp [h1, h2]

/-- On a well-formed template, the substitution scan fails with the
missing-variable error naming exactly the first referenced placeholder whose
key is not bound in `vars`. -/
theorem fmtCore_first_missing (vars : List (String × String)) (cs : List Char) :
    ∀ k, fmtWellFormed cs = true →
      (placeholderKeys cs).find? (fun key => (cacheLookup vars key).isNone) = some k →
      fmtCore vars cs = Except.error (LoadError.missingVariable k) := by
  induction cs using placeholderKeys.induct with
  | case1 =>
    intro k _ hk
    rw [keys_nil] at hk
    cases hk
  | case2 =>
    intro k hwf _
    rw [wf_lbrace_nil] at hwf
    cases hwf
  | case3 cs ih =>
    intro k hwf hk
    rw [wf_dbl_lbrace] at hwf
    rw [keys_dbl_lbrace] at hk
    rw [fmt_dbl_lbrace, ih k hwf hk]
    rfl
  | case4 c cs hc hs =>
    intro k hwf _
    rw [wf_bad_split c cs hc hs] at hwf
    cases hwf
  | case5 c cs hc k0 rest hs ih =>
    intro k hwf hk
    rw [wf_placeholder c cs k0 rest hc hs] at hwf
    rw [keys_placeholder c cs k0 rest hc hs] at hk
    rw [fmt_placeholder vars c cs k0 rest hc hs]
    cases hlook : cacheLookup vars (String.mk k0) with
    | none =>
      simp only [List.find?, hlook, Option.isNone_none, Option.some.injEq] at hk
      rw [← hk]
    | some v =>
      simp only [List.find?, hlook, Option.isNone_some] at hk
      rw [ih k hwf hk]
      rfl
  | case6 =>
    intro k hwf _
    rw [wf_rbrace_nil] at hwf
    cases hwf
  | case7 cs hrb ih =>
    intro k hwf hk
    rw [wf_dbl_rbrace] at hwf
    rw [keys_dbl_rbrace] at hk
    rw [fmt_dbl_rbrace, ih k hwf hk]
    rfl
  | case8 c cs hc hrb =>
    intro k hwf _
    rw [wf_rbrace_bad c cs hc] at hwf
    cases hwf
  | case9 c cs h1 h2 ih =>
    intro k hwf hk
    rw [wf_other c cs h1 h2] at hwf
    rw [keys_other c cs h1 h2] at hk
    rw [fmt_other vars c cs h1 h2, ih k hwf hk]
    rfl

/-- C9: `format` substitutes each placeholder with the value bound to its
key — on the template `Hi \x7bname\x7d` with `name := Ana` it yields
`Hi Ana` — and whenever the (well-formed) template references a key not
bound in the supplied variables it fails with the typed missing-variable
error naming the (first) absent placeholder. -/
theorem C9_format_substitution :
    (∀ (disk : String → Option String) (cache : List (String × String)) (f : String),
      cacheLookup cache f = none → disk f = some ("Hi \x7bname\x7d") →
      (PromptLoader.format disk cache f [("name", "Ana")]).1 = Except.ok ("Hi Ana")) ∧
    (∀ (disk : String → Option String) (cache : List (String × String)) (f : String),
      cacheLookup cache f = none → disk f = some ("Hi \x7bname\x7d") →
      (PromptLoader.format disk cache f []).1 =
        Except.error (LoadError.missingVariable ("name"))) ∧
    (∀ (t : String) (vars : List (String × String)) (k : String),
      fmtWellFormed t.data = true →
      (placeholderKeys t.data).find? (fun key => (cacheLookup vars key).isNone) = some k →
      pyFormat t vars = Except.error (LoadError.missingVariable k)) := by
  refine ⟨?_, ?_, ?_⟩
  · intro disk cache f hc hd
    simp only [PromptLoader.format, PromptLoader.load, if_true, hc, hd]
    rw [show pyStrip ("Hi \x7bname\x7d") = ("Hi \x7bname\x7d") from rfl]
    exact pyFormat_hi_ok
  · intro disk cache f hc hd
    simp only [PromptLoader.format, PromptLoader.load, if_true, hc, hd]
    rw [show pyStrip ("Hi \x7bname\x7d") = ("Hi \x7bname\x7d") from rfl]
    exact pyFormat_hi_missing
  · intro t vars k hwf hk
    have h := fmtCore_first_missing vars t.data k hwf hk
    simp [pyFormat, h]

/-- C9 (witness). -/
theorem C9_witness :
    (PromptLoader.format
      (fun s => if s = ("greet.txt") then some ("Hi \x7bname\x7d") else none)
      [] ("greet.txt") [("name", "Ana")]).1 = Except.ok ("Hi Ana") ∧
    (PromptLoader.format
      (fun s => if s = ("greet.txt") then some ("Hi \x7bname\x7d") else none)
      [] ("greet.txt") []).1 = Except.error (LoadError.missingVariable ("name")) :=
  ⟨C9_format_substitution.1 _ [] ("greet.txt") rfl rfl,
   C9_format_substitution.2.1 _ [] ("greet.txt") rfl rfl⟩
